import Mathlib

/-
Verification development for the go-x86-emu emulator (src/emulator.go).

Shallow embedding conventions:
* Go's fixed-width unsigned integers are modelled as `Nat` with an explicit
  `% 4294967296` (resp. `% 256`, `% 18446744073709551616`) wherever the Go
  code's `uint32` / `uint8` / `uint64` arithmetic wraps, and at reads of
  stored fields to model the type invariant of the Go struct fields.
* Go's signed integers are modelled as `Int`; the wrapping conversions
  (`uint32(int32)`, `int32(uint32)`, wrapping negation) are made explicit
  through the helper functions below.
* The memory slice and the register array are modelled as total functions
  `Nat → Nat`; every cell of `Memory` is read through `% 256` (it holds a
  `uint8` in Go) and every register through `% 4294967296` (a `uint32`).
* The fatal `os.Exit` paths (unimplemented SIB addressing, ModRM mod 3
  reaching effective-address resolution, unknown 0x83/0xFF sub-opcodes)
  are modelled by `Option`: `none` is the fatal/unimplemented tier.
* The byte stream handed to the external display sink by the teletype BIOS
  service is abstracted, per the spec's interface contract, to the
  (character, terminal-color, brightness) triple that the Go code formats
  into the ANSI escape string; the `Output` field records those triples.
  The serial port write of `OutDxAl` goes to the host console and is not
  recorded.
-/

/-- Processor state of the emulator (struct `Emulator` in emulator.go). -/
structure Emulator where
  Registers : Nat → Nat
  Eflags : Nat
  Memory : Nat → Nat
  Eip : Nat
  MaxMemorySize : Nat
  Output : List (Nat × Nat × Nat)

/-- Addressing descriptor (struct `ModRM` in emulator.go). -/
structure ModRM where
  Mod : Nat
  Reg : Nat
  Rm : Nat
  Sib : Nat
  Disp8 : Int
  Disp32 : Nat

/-- Register index of EAX. -/
def CEax : Nat := 0

/-- Register index of ECX. -/
def CEcx : Nat := 1

/-- Register index of EDX. -/
def CEdx : Nat := 2

/-- Register index of EBX. -/
def CEbx : Nat := 3

/-- Register index of ESP. -/
def CEsp : Nat := 4

/-- Register index of EBP. -/
def CEbp : Nat := 5

/-- Byte-register index of AL. -/
def CAl : Nat := CEax

/-- Byte-register index of AH (high byte view of EAX). -/
def CAh : Nat := CEax + 4

/-- Byte-register index of BL. -/
def CBl : Nat := CEbx

/-- Carry flag bit mask. -/
def CarryFlag : Nat := 1

/-- Zero flag bit mask (1 <<< 6). -/
def ZeroFlag : Nat := 64

/-- Sign flag bit mask (1 <<< 7). -/
def SignFlag : Nat := 128

/-- Overflow flag bit mask (1 <<< 11). -/
def OverFlowFlag : Nat := 2048

/-- Reinterpretation of the low 32 bits of a natural number as a Go `int32`
(the conversion `int32(x)` for `x : uint32`). -/
def toInt32 (x : Nat) : Int :=
  if x % 4294967296 < 2147483648 then (x % 4294967296 : Nat)
  else (x % 4294967296 : Nat) - 4294967296

/-- Wrapping of an integer into the `int32` range, modelling Go's wrap-around
on `int32` arithmetic (in particular the negation of `-2^31`). -/
def int32wrap (i : Int) : Int :=
  (i + 2147483648) % 4294967296 - 2147483648

/-- Wrapping of an integer into the `int8` range, modelling Go's wrap-around
on `int8` arithmetic (in particular the negation of `-128`). -/
def int8wrap (i : Int) : Int :=
  (i + 128) % 256 - 128

/-- The conversion `uint32(i)` for a Go signed integer `i` (two's-complement
reinterpretation of the low 32 bits). -/
def u32ofInt (i : Int) : Nat :=
  (i % 4294967296).toNat

/-- The conversion `uint64(i)` for a Go signed integer `i` (two's-complement
reinterpretation of the low 64 bits). -/
def u64ofInt (i : Int) : Nat :=
  (i % 18446744073709551616).toNat

/-- Go `GetCode8`: unsigned byte fetched at offset `index` from the program
counter. The address arithmetic wraps at 2^32 (`e.Eip+index` is `uint32`)
and the fetched cell is a `uint8`. -/
def Emulator.GetCode8 (e : Emulator) (index : Nat) : Nat :=
  e.Memory ((e.Eip + index) % 4294967296) % 256

/-- Go `GetSignCode8`: sign-extended byte fetched at offset `index` from the
program counter. The negative branch computes `-(int32(^val + 1))` exactly
as the Go code does (`^val + 1` in `uint8` arithmetic is `(256 - val) % 256`;
the `int32` negation cannot wrap since the operand is at most 255). -/
def Emulator.GetSignCode8 (e : Emulator) (index : Nat) : Int :=
  let val := e.Memory ((e.Eip + index) % 4294967296) % 256
  let sign := val >>> 7
  if sign = 0 then (val : Int)
  else -(((256 - val) % 256 : Nat) : Int)

/-- Go `GetCode32`: four bytes assembled little-endian at offset `index` from the
program counter. The Go loop ors together disjoint shifted bytes
(`ret |= byte_i << (i*8)`); since each byte is below 256 the bitwise or
equals the sum written here. -/
def Emulator.GetCode32 (e : Emulator) (index : Nat) : Nat :=
  e.GetCode8 (index + 0) + e.GetCode8 (index + 1) * 256 +
    e.GetCode8 (index + 2) * 65536 + e.GetCode8 (index + 3) * 16777216

/-- Go `GetSignCode32`: sign-extended 32-bit field at offset `index`. The
negative branch is `-(int32(^val + 1))`: `^val + 1` in `uint32` arithmetic is
`(2^32 - val) % 2^32`, the `int32` conversion reinterprets the low 32 bits,
and the negation wraps in `int32` (it does wrap when `val = 2^31`). -/
def Emulator.GetSignCode32 (e : Emulator) (index : Nat) : Int :=
  let val := e.GetCode32 index
  let sign := val >>> 31
  if sign = 0 then (val : Int)
  else int32wrap (-(toInt32 ((4294967296 - val) % 4294967296)))

/-- Go `getRegister32`: a register read; the field holds a `uint32`. -/
def Emulator.getRegister32 (e : Emulator) (index : Nat) : Nat :=
  e.Registers index % 4294967296

/-- Go `setRegister32`: a register write. -/
def Emulator.setRegister32 (e : Emulator) (index value : Nat) : Emulator :=
  { e with Registers := fun j => if j = index then value else e.Registers j }

/-- Go `getRegister8`: byte sub-register read; indices 0-3 are the low byte of
registers 0-3 (`& 0xFF`), indices 4-7 the high byte of the low 16 bits
(`>> 8 & 0xFF`). -/
def Emulator.getRegister8 (e : Emulator) (index : Nat) : Nat :=
  if index < 4 then e.getRegister32 index % 256
  else e.getRegister32 (index - 4) / 256 % 256

/-- Go `setRegister8`: byte sub-register write, mask-and-or into the owning
32-bit register (`v & 0xFFFFFF00 | value` resp. `v & 0xFFFF00FF | value<<8`,
written arithmetically: the or fills the zeroed byte hole). -/
def Emulator.setRegister8 (e : Emulator) (index value : Nat) : Emulator :=
  if index < 4 then
    e.setRegister32 index (e.getRegister32 index / 256 * 256 + value % 256)
  else
    e.setRegister32 (index - 4)
      (e.getRegister32 (index - 4) / 65536 * 65536 +
        e.getRegister32 (index - 4) % 256 + value % 256 * 256)

/-- Go `setMemory8`: store one byte (`uint8(value & 0xFF)` is `value % 256`). -/
def Emulator.setMemory8 (e : Emulator) (address value : Nat) : Emulator :=
  { e with Memory := fun x => if x = address then value % 256 else e.Memory x }

/-- Go `getMemory8`: load one byte; the cell holds a `uint8`. -/
def Emulator.getMemory8 (e : Emulator) (address : Nat) : Nat :=
  e.Memory address % 256

/-- Go `setMemory32`: store four bytes little-endian, lowest byte first, at
`address + i` in `uint32` address arithmetic; byte `i` is
`(value >> (i*8)) & 0xFF`, written `value / 2^(8*i) % 256`. -/
def Emulator.setMemory32 (e : Emulator) (address value : Nat) : Emulator :=
  ((((e.setMemory8 ((address + 0) % 4294967296) (value % 256)).setMemory8
      ((address + 1) % 4294967296) (value / 256 % 256)).setMemory8
      ((address + 2) % 4294967296) (value / 65536 % 256)).setMemory8
      ((address + 3) % 4294967296) (value / 16777216 % 256))

/-- Go `getMemory32`: load four bytes little-endian; the Go loop ors together
disjoint shifted bytes, which equals the sum written here. -/
def Emulator.getMemory32 (e : Emulator) (address : Nat) : Nat :=
  e.getMemory8 ((address + 0) % 4294967296) +
    e.getMemory8 ((address + 1) % 4294967296) * 256 +
    e.getMemory8 ((address + 2) % 4294967296) * 65536 +
    e.getMemory8 ((address + 3) % 4294967296) * 16777216

/-- Go `ParseModrm`: decode the ModRM byte (mode, reg, rm fields), consume an SIB
byte when `mod ≠ 3 ∧ rm = 4`, then a 4-byte displacement when
`(mod = 0 ∧ rm = 5) ∨ mod = 2`, else a 1-byte displacement when `mod = 1`,
advancing the program counter over each consumed field. `Disp8` stores
`int8(GetSignCode8(0))` (the conversion is the identity on [-128,127]) and
`Disp32` stores `uint32(GetSignCode32(0))`. -/
def Emulator.ParseModrm (e : Emulator) : ModRM × Emulator :=
  let code := e.GetCode8 0
  let md := (code &&& 0xc0) >>> 6
  let rg := (code &&& 0x38) >>> 3
  let rm := code &&& 0x07
  let e1 : Emulator := { e with Eip := (e.Eip + 1) % 4294967296 }
  let sib := if md ≠ 3 ∧ rm = 4 then e1.GetCode8 0 else 0
  let e2 : Emulator :=
    if md ≠ 3 ∧ rm = 4 then { e1 with Eip := (e1.Eip + 1) % 4294967296 } else e1
  let d32 := if (md = 0 ∧ rm = 5) ∨ md = 2 then u32ofInt (e2.GetSignCode32 0) else 0
  let d8 : Int :=
    if (md = 0 ∧ rm = 5) ∨ md = 2 then 0
    else if md = 1 then e2.GetSignCode8 0 else 0
  let e3 : Emulator :=
    if (md = 0 ∧ rm = 5) ∨ md = 2 then { e2 with Eip := (e2.Eip + 4) % 4294967296 }
    else if md = 1 then { e2 with Eip := (e2.Eip + 1) % 4294967296 }
    else e2
  (⟨md, rg, rm, sib, d8, d32⟩, e3)

/-- Go `calcMemoryAddress`: effective-address resolution. The `os.Exit` paths
(SIB forms `rm = 4`, and mod 3 reaching this function) are `none`. In the
mod 1 branch the Go code tests `Disp8 > 0` and on the other path computes
`reg - uint32(-Disp8)`: the `int8` negation wraps (note `-(-128) = -128` in
`int8`), then sign-extends to `uint32`, and the `uint32` subtraction wraps. -/
def Emulator.calcMemoryAddress (e : Emulator) (m : ModRM) : Option Nat :=
  if m.Mod = 0 then
    if m.Rm = 4 then none
    else if m.Rm = 5 then some m.Disp32
    else some (e.getRegister32 m.Rm)
  else if m.Mod = 1 then
    if m.Rm = 4 then none
    else if m.Disp8 > 0 then
      some ((e.getRegister32 m.Rm + u32ofInt m.Disp8) % 4294967296)
    else
      some ((e.getRegister32 m.Rm + 4294967296 - u32ofInt (int8wrap (-m.Disp8))) %
        4294967296)
  else if m.Mod = 2 then
    if m.Rm = 4 then none
    else some ((e.getRegister32 m.Rm + m.Disp32) % 4294967296)
  else none

/-- Go `getRm32`: read the memory/register operand (register-direct when
`mod = 3`, otherwise through effective-address resolution). -/
def Emulator.getRm32 (e : Emulator) (m : ModRM) : Option Nat :=
  if m.Mod = 3 then some (e.getRegister32 m.Rm)
  else (e.calcMemoryAddress m).map (fun address => e.getMemory32 address)

/-- Go `setRm32`: write the memory/register operand. -/
def Emulator.setRm32 (e : Emulator) (m : ModRM) (value : Nat) : Option Emulator :=
  if m.Mod = 3 then some (e.setRegister32 m.Rm value)
  else (e.calcMemoryAddress m).map (fun address => e.setMemory32 address value)

/-- Go `getR32`: read the register selected by the ModRM reg field. -/
def Emulator.getR32 (e : Emulator) (m : ModRM) : Nat :=
  e.getRegister32 m.Reg

/-- Go `setR32`: write the register selected by the ModRM reg field. -/
def Emulator.setR32 (e : Emulator) (m : ModRM) (value : Nat) : Emulator :=
  e.setRegister32 m.Reg value

/-- Go `getRm8`: read the 8-bit memory/register operand. -/
def Emulator.getRm8 (e : Emulator) (m : ModRM) : Option Nat :=
  if m.Mod = 3 then some (e.getRegister8 m.Rm)
  else (e.calcMemoryAddress m).map (fun address => e.getMemory8 address)

/-- Go `setRm8`: write the 8-bit memory/register operand. -/
def Emulator.setRm8 (e : Emulator) (m : ModRM) (value : Nat) : Option Emulator :=
  if m.Mod = 3 then some (e.setRegister8 m.Rm value)
  else (e.calcMemoryAddress m).map (fun address => e.setMemory8 address value)

/-- Go `getR8`: read the byte register selected by the ModRM reg field. -/
def Emulator.getR8 (e : Emulator) (m : ModRM) : Nat :=
  e.getRegister8 m.Reg

/-- Go `setR8`: write the byte register selected by the ModRM reg field. -/
def Emulator.setR8 (e : Emulator) (m : ModRM) (value : Nat) : Emulator :=
  e.setRegister8 m.Reg value

/-- Go `setCarry`: set or clear the carry bit (`|= mask` / `&= ^mask`; the
`uint32` complement of the mask is `4294967295 - mask`). -/
def Emulator.setCarry (e : Emulator) (b : Bool) : Emulator :=
  if b then { e with Eflags := e.Eflags ||| CarryFlag }
  else { e with Eflags := e.Eflags &&& (4294967295 - CarryFlag) }

/-- Go `setZero`: set or clear the zero bit. -/
def Emulator.setZero (e : Emulator) (b : Bool) : Emulator :=
  if b then { e with Eflags := e.Eflags ||| ZeroFlag }
  else { e with Eflags := e.Eflags &&& (4294967295 - ZeroFlag) }

/-- Go `setSign`: set or clear the sign bit. -/
def Emulator.setSign (e : Emulator) (b : Bool) : Emulator :=
  if b then { e with Eflags := e.Eflags ||| SignFlag }
  else { e with Eflags := e.Eflags &&& (4294967295 - SignFlag) }

/-- Go `setOverFlow`: set or clear the overflow bit. -/
def Emulator.setOverFlow (e : Emulator) (b : Bool) : Emulator :=
  if b then { e with Eflags := e.Eflags ||| OverFlowFlag }
  else { e with Eflags := e.Eflags &&& (4294967295 - OverFlowFlag) }

/-- Go `isCarry`: test the carry bit. -/
def Emulator.isCarry (e : Emulator) : Bool :=
  e.Eflags &&& CarryFlag != 0

/-- Go `isZero`: test the zero bit. -/
def Emulator.isZero (e : Emulator) : Bool :=
  e.Eflags &&& ZeroFlag != 0

/-- Go `isSign`: test the sign bit. -/
def Emulator.isSign (e : Emulator) : Bool :=
  e.Eflags &&& SignFlag != 0

/-- Go `isOverFlow`: test the overflow bit. -/
def Emulator.isOverFlow (e : Emulator) : Bool :=
  e.Eflags &&& OverFlowFlag != 0

/-- Go `updateEflagsSub`: flag computation for a subtraction whose wide `uint64`
result is `result`; carry from bit 32 of the wide result, zero from the wide
result being zero, sign from bit 31, overflow from the operand/result sign
bits. -/
def Emulator.updateEflagsSub (e : Emulator) (v1 v2 result : Nat) : Emulator :=
  let sign1 := v1 >>> 31
  let sign2 := v2 >>> 31
  let signr := (result >>> 31) &&& 1
  let e1 := e.setCarry (result >>> 32 != 0)
  let e2 := e1.setZero (result == 0)
  let e3 := e2.setSign (signr == 1)
  e3.setOverFlow (sign1 != sign2 && sign1 != signr)

/-- Go `MovR32Imm32` (opcodes 0xB8-0xBF): load a 4-byte immediate into the
register selected by `opcode - 0xB8` (`uint32` subtraction); advance 5. -/
def Emulator.MovR32Imm32 (e : Emulator) : Emulator :=
  let reg := (e.GetCode8 0 + 4294967296 - 0xB8) % 4294967296
  let value := e.GetCode32 1
  let e1 := e.setRegister32 reg value
  { e1 with Eip := (e1.Eip + 5) % 4294967296 }

/-- Go `ShortJump` (opcode 0xEB): 1-byte signed displacement; if positive,
`Eip += uint32(diff) + 2`, else `Eip -= uint32(-diff); Eip += 2` (the `int32`
negation cannot wrap since `diff ≥ -128`). -/
def Emulator.ShortJump (e : Emulator) : Emulator :=
  let diff := e.GetSignCode8 1
  if diff > 0 then { e with Eip := (e.Eip + (u32ofInt diff + 2)) % 4294967296 }
  else
    { e with Eip :=
        ((e.Eip + 4294967296 - u32ofInt (-diff)) % 4294967296 + 2) % 4294967296 }

/-- Go `NearJump` (opcode 0xE9): 4-byte signed displacement; same pattern with
instruction length 5; the `int32` negation of `-diff` wraps when
`diff = -2^31`. -/
def Emulator.NearJump (e : Emulator) : Emulator :=
  let diff := e.GetSignCode32 1
  if diff > 0 then { e with Eip := (e.Eip + (u32ofInt diff + 5)) % 4294967296 }
  else
    { e with Eip :=
        ((e.Eip + 4294967296 - u32ofInt (int32wrap (-diff))) % 4294967296 + 5) %
          4294967296 }

/-- Go `MovRm32Imm32` (opcode 0xC7): decode addressing, load a 4-byte immediate,
store it to the memory/register operand. -/
def Emulator.MovRm32Imm32 (e : Emulator) : Option Emulator :=
  let e1 : Emulator := { e with Eip := (e.Eip + 1) % 4294967296 }
  let pm := e1.ParseModrm
  let value := pm.2.GetCode32 0
  let e2 : Emulator := { pm.2 with Eip := (pm.2.Eip + 4) % 4294967296 }
  e2.setRm32 pm.1 value

/-- Go `MovRm32R32` (opcode 0x89, and 0x8A in the dispatch table): store the
reg-field register into the memory/register operand. -/
def Emulator.MovRm32R32 (e : Emulator) : Option Emulator :=
  let e1 : Emulator := { e with Eip := (e.Eip + 1) % 4294967296 }
  let pm := e1.ParseModrm
  let r32 := pm.2.getR32 pm.1
  pm.2.setRm32 pm.1 r32

/-- Go `MovR32Rm32` (opcode 0x8B): load the memory/register operand into the
reg-field register. -/
def Emulator.MovR32Rm32 (e : Emulator) : Option Emulator :=
  let e1 : Emulator := { e with Eip := (e.Eip + 1) % 4294967296 }
  let pm := e1.ParseModrm
  (pm.2.getRm32 pm.1).map (fun rm32 => pm.2.setR32 pm.1 rm32)

/-- Go `AddRm32R32` (opcode 0x01): 32-bit add of the reg-field register into the
memory/register operand (`uint32` addition wraps); no flag update. -/
def Emulator.AddRm32R32 (e : Emulator) : Option Emulator :=
  let e1 : Emulator := { e with Eip := (e.Eip + 1) % 4294967296 }
  let pm := e1.ParseModrm
  let r32 := pm.2.getR32 pm.1
  (pm.2.getRm32 pm.1).bind
    (fun rm32 => pm.2.setRm32 pm.1 ((r32 + rm32) % 4294967296))

/-- Go `AddRm32Imm8` (0x83 sub-opcode 0): add the sign-extended 8-bit immediate
(`rm32 + uint32(imm8)` wraps); no flag update. -/
def Emulator.AddRm32Imm8 (e : Emulator) (m : ModRM) : Option Emulator :=
  (e.getRm32 m).bind (fun rm32 =>
    let imm8 := e.GetSignCode8 0
    let e1 : Emulator := { e with Eip := (e.Eip + 1) % 4294967296 }
    e1.setRm32 m ((rm32 + u32ofInt imm8) % 4294967296))

/-- Go `SubRm32Imm8` (0x83 sub-opcode 5): subtract the 8-bit immediate and update
flags. Note the wide result is `uint64(rm32) - uint64(imm8)` where `imm8` is
the `int32` sign-extended immediate, so the conversion to `uint64` sign-extends
to 64 bits (unlike `CmpRm32Imm8`, which goes through `uint32` first). -/
def Emulator.SubRm32Imm8 (e : Emulator) (m : ModRM) : Option Emulator :=
  (e.getRm32 m).bind (fun rm32 =>
    let imm8 := e.GetSignCode8 0
    let e1 : Emulator := { e with Eip := (e.Eip + 1) % 4294967296 }
    let result := (rm32 + 18446744073709551616 - u64ofInt imm8) % 18446744073709551616
    (e1.setRm32 m (result % 4294967296)).map
      (fun e2 => e2.updateEflagsSub rm32 (u32ofInt imm8) result))

/-- Go `CmpRm32Imm8` (0x83 sub-opcode 7): compare against the 8-bit immediate,
first converted to `uint32` (`imm8 := uint32(GetSignCode8(0))`), then
zero-extended to `uint64` for the wide subtraction; flags only. -/
def Emulator.CmpRm32Imm8 (e : Emulator) (m : ModRM) : Option Emulator :=
  (e.getRm32 m).map (fun rm32 =>
    let imm8 := u32ofInt (e.GetSignCode8 0)
    let e1 : Emulator := { e with Eip := (e.Eip + 1) % 4294967296 }
    let result := (rm32 + 18446744073709551616 - imm8) % 18446744073709551616
    e1.updateEflagsSub rm32 imm8 result)

/-- Go `Code83` (opcode 0x83): immediate-8 group dispatched on the ModRM reg
field: 0 = add, 5 = sub, 7 = cmp; other sub-opcodes are fatal. -/
def Emulator.Code83 (e : Emulator) : Option Emulator :=
  let e1 : Emulator := { e with Eip := (e.Eip + 1) % 4294967296 }
  let pm := e1.ParseModrm
  match pm.1.Reg with
  | 0 => pm.2.AddRm32Imm8 pm.1
  | 5 => pm.2.SubRm32Imm8 pm.1
  | 7 => pm.2.CmpRm32Imm8 pm.1
  | _ => none

/-- Go `IncRm32` (0xFF sub-opcode 0): increment the memory/register operand
(`value + 1` wraps); no flag update, no program-counter change of its own. -/
def Emulator.IncRm32 (e : Emulator) (m : ModRM) : Option Emulator :=
  (e.getRm32 m).bind (fun value => e.setRm32 m ((value + 1) % 4294967296))

/-- Go `CodeFF` (opcode 0xFF): group dispatched on the ModRM reg field:
0 = increment; other sub-opcodes are fatal. -/
def Emulator.CodeFF (e : Emulator) : Option Emulator :=
  let e1 : Emulator := { e with Eip := (e.Eip + 1) % 4294967296 }
  let pm := e1.ParseModrm
  match pm.1.Reg with
  | 0 => pm.2.IncRm32 pm.1
  | _ => none

/-- Go `push32`: store `value` at `esp - 4` (`uint32` subtraction wraps),
setting the stack pointer to that address first. -/
def Emulator.push32 (e : Emulator) (value : Nat) : Emulator :=
  let address := (e.getRegister32 CEsp + 4294967296 - 4) % 4294967296
  (e.setRegister32 CEsp address).setMemory32 address value

/-- Go `PushR32` (opcodes 0x50-0x57): push the register selected by
`opcode - 0x50` (`uint32` subtraction, then the index is narrowed through
`uint8(reg)`); the register is read before `push32` moves the stack pointer;
advance 1. -/
def Emulator.PushR32 (e : Emulator) : Emulator :=
  let reg := (e.GetCode8 0 + 4294967296 - 0x50) % 4294967296
  let e1 := e.push32 (e.getRegister32 (reg % 256))
  { e1 with Eip := (e1.Eip + 1) % 4294967296 }

/-- Go `pop32`: read the 32-bit value at the stack pointer, then increment the
stack pointer by 4; returns the value and the new state. -/
def Emulator.pop32 (e : Emulator) : Nat × Emulator :=
  let address := e.getRegister32 CEsp
  let ret := e.getMemory32 address
  (ret, e.setRegister32 CEsp ((address + 4) % 4294967296))

/-- Go `popR32` (opcodes 0x58-0x5F): pop into the register selected by
`opcode - 0x58` (the index is narrowed through `uint8(reg)`); `pop32` runs
(moving the stack pointer) before the destination register is written;
advance 1. -/
def Emulator.popR32 (e : Emulator) : Emulator :=
  let reg := (e.GetCode8 0 + 4294967296 - 0x58) % 4294967296
  let pr := e.pop32
  let e1 := pr.2.setRegister32 (reg % 256) pr.1
  { e1 with Eip := (e1.Eip + 1) % 4294967296 }

/-- Go `CallRel32` (opcode 0xE8): push the return address `Eip + 5`, then apply
the near-jump displacement rule. -/
def Emulator.CallRel32 (e : Emulator) : Emulator :=
  let diff := e.GetSignCode32 1
  let e1 := e.push32 ((e.Eip + 5) % 4294967296)
  if diff > 0 then { e1 with Eip := (e1.Eip + (u32ofInt diff + 5)) % 4294967296 }
  else
    { e1 with Eip :=
        ((e1.Eip + 4294967296 - u32ofInt (int32wrap (-diff))) % 4294967296 + 5) %
          4294967296 }

/-- Go `Ret` (opcode 0xC3): pop the top of stack into the program counter. -/
def Emulator.Ret (e : Emulator) : Emulator :=
  let pr := e.pop32
  { pr.2 with Eip := pr.1 }

/-- Go `Leave` (opcode 0xC9): copy EBP into ESP, pop into EBP; advance 1. -/
def Emulator.Leave (e : Emulator) : Emulator :=
  let ebp := e.getRegister32 CEbp
  let e1 := e.setRegister32 CEsp ebp
  let pr := e1.pop32
  let e2 := pr.2.setRegister32 CEbp pr.1
  { e2 with Eip := (e2.Eip + 1) % 4294967296 }

/-- Go `PushImm32` (opcode 0x68): push the 4-byte immediate; advance 5. -/
def Emulator.PushImm32 (e : Emulator) : Emulator :=
  let value := e.GetCode32 1
  let e1 := e.push32 value
  { e1 with Eip := (e1.Eip + 5) % 4294967296 }

/-- Go `PushImm8` (opcode 0x6A): push the zero-extended 1-byte immediate;
advance 2. -/
def Emulator.PushImm8 (e : Emulator) : Emulator :=
  let value := e.GetCode8 1
  let e1 := e.push32 value
  { e1 with Eip := (e1.Eip + 2) % 4294967296 }

/-- Go `CmpR32Rm32` (opcode 0x3B): compare the reg-field register against the
memory/register operand; the wide result is a `uint64` subtraction of the two
zero-extended `uint32` operands; flags only. -/
def Emulator.CmpR32Rm32 (e : Emulator) : Option Emulator :=
  let e1 : Emulator := { e with Eip := (e.Eip + 1) % 4294967296 }
  let pm := e1.ParseModrm
  let r32 := pm.2.getR32 pm.1
  (pm.2.getRm32 pm.1).map (fun rm32 =>
    let result := (r32 + 18446744073709551616 - rm32) % 18446744073709551616
    pm.2.updateEflagsSub r32 rm32 result)

/-- Go `CmpAlImm8` (opcode 0x3C): compare AL against the zero-extended 1-byte
immediate; flags only; advance 2. -/
def Emulator.CmpAlImm8 (e : Emulator) : Emulator :=
  let value := e.GetCode8 1
  let al := e.getRegister8 CAl
  let result := (al + 18446744073709551616 - value) % 18446744073709551616
  let e1 := e.updateEflagsSub al value result
  { e1 with Eip := (e1.Eip + 2) % 4294967296 }

/-- Go `CmpEaxImm32` (opcode 0x3D): compare EAX against the 4-byte immediate;
flags only; advance 5. -/
def Emulator.CmpEaxImm32 (e : Emulator) : Emulator :=
  let value := e.GetCode32 1
  let eax := e.getRegister32 CEax
  let result := (eax + 18446744073709551616 - value) % 18446744073709551616
  let e1 := e.updateEflagsSub eax value result
  { e1 with Eip := (e1.Eip + 5) % 4294967296 }

/-- Go `IncR32` (opcodes 0x40-0x47): add 1 (wrapping) to the register selected
by `opcode - 0x40` (the index is narrowed through `uint8(reg)`); no flag
update; advance 1. -/
def Emulator.IncR32 (e : Emulator) : Emulator :=
  let reg := (e.GetCode8 0 + 4294967296 - 0x40) % 4294967296
  let e1 := e.setRegister32 (reg % 256)
    ((e.getRegister32 (reg % 256) + 1) % 4294967296)
  { e1 with Eip := (e1.Eip + 1) % 4294967296 }

/-- Go `Js` (opcode 0x78): short jump when the sign flag is set, with the
displacement forced to 0 when the predicate is false. -/
def Emulator.Js (e : Emulator) : Emulator :=
  let diff : Int := if e.isSign then e.GetSignCode8 1 else 0
  if diff > 0 then { e with Eip := (e.Eip + (u32ofInt diff + 2)) % 4294967296 }
  else
    { e with Eip :=
        ((e.Eip + 4294967296 - u32ofInt (-diff)) % 4294967296 + 2) % 4294967296 }

/-- Go `Jns` (opcode 0x79): short jump when the sign flag is clear. -/
def Emulator.Jns (e : Emulator) : Emulator :=
  let diff : Int := if e.isSign then 0 else e.GetSignCode8 1
  if diff > 0 then { e with Eip := (e.Eip + (u32ofInt diff + 2)) % 4294967296 }
  else
    { e with Eip :=
        ((e.Eip + 4294967296 - u32ofInt (-diff)) % 4294967296 + 2) % 4294967296 }

/-- Go `Jc` (opcode 0x72): short jump when the carry flag is set. -/
def Emulator.Jc (e : Emulator) : Emulator :=
  let diff : Int := if e.isCarry then e.GetSignCode8 1 else 0
  if diff > 0 then { e with Eip := (e.Eip + (u32ofInt diff + 2)) % 4294967296 }
  else
    { e with Eip :=
        ((e.Eip + 4294967296 - u32ofInt (-diff)) % 4294967296 + 2) % 4294967296 }

/-- Go `Jnc` (opcode 0x73): short jump when the carry flag is clear. -/
def Emulator.Jnc (e : Emulator) : Emulator :=
  let diff : Int := if e.isCarry then 0 else e.GetSignCode8 1
  if diff > 0 then { e with Eip := (e.Eip + (u32ofInt diff + 2)) % 4294967296 }
  else
    { e with Eip :=
        ((e.Eip + 4294967296 - u32ofInt (-diff)) % 4294967296 + 2) % 4294967296 }

/-- Go `Jz` (opcode 0x74): short jump when the zero flag is set. -/
def Emulator.Jz (e : Emulator) : Emulator :=
  let diff : Int := if e.isZero then e.GetSignCode8 1 else 0
  if diff > 0 then { e with Eip := (e.Eip + (u32ofInt diff + 2)) % 4294967296 }
  else
    { e with Eip :=
        ((e.Eip + 4294967296 - u32ofInt (-diff)) % 4294967296 + 2) % 4294967296 }

/-- Go `Jnz` (opcode 0x75): short jump when the zero flag is clear. -/
def Emulator.Jnz (e : Emulator) : Emulator :=
  let diff : Int := if e.isZero then 0 else e.GetSignCode8 1
  if diff > 0 then { e with Eip := (e.Eip + (u32ofInt diff + 2)) % 4294967296 }
  else
    { e with Eip :=
        ((e.Eip + 4294967296 - u32ofInt (-diff)) % 4294967296 + 2) % 4294967296 }

/-- Go `Jo` (opcode 0x70): short jump when the overflow flag is set. -/
def Emulator.Jo (e : Emulator) : Emulator :=
  let diff : Int := if e.isOverFlow then e.GetSignCode8 1 else 0
  if diff > 0 then { e with Eip := (e.Eip + (u32ofInt diff + 2)) % 4294967296 }
  else
    { e with Eip :=
        ((e.Eip + 4294967296 - u32ofInt (-diff)) % 4294967296 + 2) % 4294967296 }

/-- Go `Jno` (opcode 0x71): short jump when the overflow flag is clear. -/
def Emulator.Jno (e : Emulator) : Emulator :=
  let diff : Int := if e.isOverFlow then 0 else e.GetSignCode8 1
  if diff > 0 then { e with Eip := (e.Eip + (u32ofInt diff + 2)) % 4294967296 }
  else
    { e with Eip :=
        ((e.Eip + 4294967296 - u32ofInt (-diff)) % 4294967296 + 2) % 4294967296 }

/-- Go `Jl` (opcode 0x7C): short jump when sign ≠ overflow. -/
def Emulator.Jl (e : Emulator) : Emulator :=
  let diff : Int := if e.isSign != e.isOverFlow then e.GetSignCode8 1 else 0
  if diff > 0 then { e with Eip := (e.Eip + (u32ofInt diff + 2)) % 4294967296 }
  else
    { e with Eip :=
        ((e.Eip + 4294967296 - u32ofInt (-diff)) % 4294967296 + 2) % 4294967296 }

/-- Go `Jle` (opcode 0x7E): short jump when zero or sign ≠ overflow. -/
def Emulator.Jle (e : Emulator) : Emulator :=
  let diff : Int :=
    if e.isZero || (e.isSign != e.isOverFlow) then e.GetSignCode8 1 else 0
  if diff > 0 then { e with Eip := (e.Eip + (u32ofInt diff + 2)) % 4294967296 }
  else
    { e with Eip :=
        ((e.Eip + 4294967296 - u32ofInt (-diff)) % 4294967296 + 2) % 4294967296 }

/-- Go `OutDxAl` (opcode 0xEE): write AL to the I/O port in DX; the byte goes to
the external console sink (`IoOut8`), which is outside the modelled state;
advance 1. -/
def Emulator.OutDxAl (e : Emulator) : Emulator :=
  { e with Eip := (e.Eip + 1) % 4294967296 }

/-- Go `MovR8Imm8` (opcodes 0xB0-0xB7): as written in the Go source, this handler
decodes a ModRM byte and copies the 8-bit memory/register operand into the
reg-field byte register (the same body as `MovR8Rm8`). -/
def Emulator.MovR8Imm8 (e : Emulator) : Option Emulator :=
  let e1 : Emulator := { e with Eip := (e.Eip + 1) % 4294967296 }
  let pm := e1.ParseModrm
  (pm.2.getRm8 pm.1).map (fun rm8 => pm.2.setR8 pm.1 rm8)

/-- Go `MovRm8R8` (opcode 0x88): store the reg-field byte register into the
8-bit memory/register operand. -/
def Emulator.MovRm8R8 (e : Emulator) : Option Emulator :=
  let e1 : Emulator := { e with Eip := (e.Eip + 1) % 4294967296 }
  let pm := e1.ParseModrm
  let r8 := pm.2.getR8 pm.1
  pm.2.setRm8 pm.1 r8

/-- Go `MovR8Rm8` (the handler for opcode 0x8A in the Go source, though the
dispatch table routes 0x8A elsewhere): load the 8-bit memory/register operand
into the reg-field byte register. -/
def Emulator.MovR8Rm8 (e : Emulator) : Option Emulator :=
  let e1 : Emulator := { e with Eip := (e.Eip + 1) % 4294967296 }
  let pm := e1.ParseModrm
  (pm.2.getRm8 pm.1).map (fun rm8 => pm.2.setR8 pm.1 rm8)

/-- The fixed 8-entry table mapping a BIOS color index (low 3 bits of the
4-bit color) to a terminal foreground-color identifier; entry 4 (value 31) is
red. -/
def biosToTerminal : List Nat := [30, 34, 32, 36, 31, 35, 33, 37]

/-- Go `biosVideoTeletype`: read the 4-bit color from BL (`& 0x0F`) and the
character from AL; the low 3 bits select the terminal color through
`biosToTerminal` and bit 3 (`(color & 0x08) >> 3`) is the brightness flag.
The Go code formats these into an ANSI escape string and streams its bytes to
the display sink; the embedding records the (character, color, brightness)
triple the string carries. -/
def Emulator.biosVideoTeletype (e : Emulator) : Emulator :=
  let color := e.getRegister8 CBl &&& 0x0F
  let char := e.getRegister8 CAl
  let terminalColor := biosToTerminal.getD (color &&& 0x07) 0
  let bright := (color &&& 0x08) >>> 3
  { e with Output := e.Output ++ [(char, terminalColor, bright)] }

/-- Go `biosVideo` (interrupt 0x10): dispatch on the function number in AH; only
function 0x0E (teletype) is implemented, anything else logs and continues. -/
def Emulator.biosVideo (e : Emulator) : Emulator :=
  let funcIndex := e.getRegister8 CAh
  if funcIndex = 0x0e then e.biosVideoTeletype else e

/-- Go `Swi` (opcode 0xCD): software interrupt; consume the 1-byte vector and
advance 2 before dispatch; only vector 0x10 is implemented, anything else
logs and continues. -/
def Emulator.Swi (e : Emulator) : Emulator :=
  let intIndex := e.GetCode8 1
  let e1 : Emulator := { e with Eip := (e.Eip + 2) % 4294967296 }
  if intIndex = 0x10 then e1.biosVideo else e1

/-- Go `executeOpCode`: the dispatch table (the Go `switch` on the opcode byte).
`none` is the fatal/unimplemented tier reached inside a handler; the default
case forces the program counter to zero (the soft halt signal). Note the Go
table routes opcode 0x8A to `MovRm32R32`, not to `MovR8Rm8`. -/
def Emulator.executeOpCode (e : Emulator) (opCode : Nat) : Option Emulator :=
  if opCode = 0x01 then e.AddRm32R32
  else if opCode = 0x3B then e.CmpR32Rm32
  else if opCode = 0x3C then some e.CmpAlImm8
  else if opCode = 0x3D then some e.CmpEaxImm32
  else if opCode = 0x40 ∨ opCode = 0x41 ∨ opCode = 0x42 ∨ opCode = 0x43 ∨
      opCode = 0x44 ∨ opCode = 0x45 ∨ opCode = 0x46 ∨ opCode = 0x47 then
    some e.IncR32
  else if opCode = 0x50 ∨ opCode = 0x51 ∨ opCode = 0x52 ∨ opCode = 0x53 ∨
      opCode = 0x54 ∨ opCode = 0x55 ∨ opCode = 0x56 ∨ opCode = 0x57 then
    some e.PushR32
  else if opCode = 0x58 ∨ opCode = 0x59 ∨ opCode = 0x5A ∨ opCode = 0x5B ∨
      opCode = 0x5C ∨ opCode = 0x5D ∨ opCode = 0x5E ∨ opCode = 0x5F then
    some e.popR32
  else if opCode = 0x68 then some e.PushImm32
  else if opCode = 0x6A then some e.PushImm8
  else if opCode = 0x70 then some e.Jo
  else if opCode = 0x71 then some e.Jno
  else if opCode = 0x72 then some e.Jc
  else if opCode = 0x73 then some e.Jnc
  else if opCode = 0x74 then some e.Jz
  else if opCode = 0x75 then some e.Jnz
  else if opCode = 0x78 then some e.Js
  else if opCode = 0x79 then some e.Jns
  else if opCode = 0x7C then some e.Jl
  else if opCode = 0x7E then some e.Jle
  else if opCode = 0x83 then e.Code83
  else if opCode = 0x88 then e.MovRm8R8
  else if opCode = 0x89 then e.MovRm32R32
  else if opCode = 0x8A then e.MovRm32R32
  else if opCode = 0x8B then e.MovR32Rm32
  else if opCode = 0xB0 ∨ opCode = 0xB1 ∨ opCode = 0xB2 ∨ opCode = 0xB3 ∨
      opCode = 0xB4 ∨ opCode = 0xB5 ∨ opCode = 0xB6 ∨ opCode = 0xB7 then
    e.MovR8Imm8
  else if opCode = 0xB8 ∨ opCode = 0xB9 ∨ opCode = 0xBA ∨ opCode = 0xBB ∨
      opCode = 0xBC ∨ opCode = 0xBD ∨ opCode = 0xBE ∨ opCode = 0xBF then
    some e.MovR32Imm32
  else if opCode = 0xC3 then some e.Ret
  else if opCode = 0xC7 then e.MovRm32Imm32
  else if opCode = 0xC9 then some e.Leave
  else if opCode = 0xCD then some e.Swi
  else if opCode = 0xE8 then some e.CallRel32
  else if opCode = 0xE9 then some e.NearJump
  else if opCode = 0xEB then some e.ShortJump
  else if opCode = 0xEE then some e.OutDxAl
  else if opCode = 0xFF then e.CodeFF
  else some { e with Eip := 0 }

/-- Every opcode value handled by a case of the dispatch table; everything
outside this list falls to the default (unrecognized-opcode) case. -/
def opcodeTable : List Nat :=
  [0x01, 0x3B, 0x3C, 0x3D,
   0x40, 0x41, 0x42, 0x43, 0x44, 0x45, 0x46, 0x47,
   0x50, 0x51, 0x52, 0x53, 0x54, 0x55, 0x56, 0x57,
   0x58, 0x59, 0x5A, 0x5B, 0x5C, 0x5D, 0x5E, 0x5F,
   0x68, 0x6A, 0x70, 0x71, 0x72, 0x73, 0x74, 0x75, 0x78, 0x79, 0x7C, 0x7E,
   0x83, 0x88, 0x89, 0x8A, 0x8B,
   0xB0, 0xB1, 0xB2, 0xB3, 0xB4, 0xB5, 0xB6, 0xB7,
   0xB8, 0xB9, 0xBA, 0xBB, 0xBC, 0xBD, 0xBE, 0xBF,
   0xC3, 0xC7, 0xC9, 0xCD, 0xE8, 0xE9, 0xEB, 0xEE, 0xFF]

/-- Go `Run`, fuel-indexed: while the program counter is below the memory bound,
fetch one opcode byte and dispatch; stop (returning the final state) when the
bound is reached or the executed instruction left the program counter at zero;
`none` propagates a fatal-tier termination out of a handler. With the fuel
exhausted the current state is returned. -/
def Run : Nat → Emulator → Option Emulator
  | 0, e => some e
  | Nat.succ n, e =>
    if e.MaxMemorySize ≤ e.Eip then some e
    else
      (e.executeOpCode (e.GetCode8 0)).bind
        (fun e2 => if e2.Eip = 0 then some e2 else Run n e2)

/-- The unique integer in [-128, 127] congruent to the byte `d` modulo 256
(standard two's-complement reading of a displacement byte); used to state
claims about signed 8-bit fields. -/
def signext8 (d : Nat) : Int :=
  if d < 128 then (d : Int) else (d : Int) - 256

/-- Concrete state for the `SubRm32Imm8` flag divergence: code bytes
`83 E8 FE` (`sub eax, -2` in register-direct form), EAX = 0xFFFFFFFE, and the
zero flag initially set. -/
def subFlagsState : Emulator :=
  { Registers := fun i => if i = 0 then 4294967294 else 0
    Eflags := 64
    Memory := fun a => if a = 0 then 0x83 else if a = 1 then 0xE8 else
      if a = 2 then 0xFE else 0
    Eip := 0
    MaxMemorySize := 1024
    Output := [] }

/-- Concrete state for mod-1 displacement decoding: code bytes `40 d`
(ModRM mode 1, reg 0, rm 0 followed by the displacement byte `d`), with base
register EAX = 100. -/
def dispState (d : Nat) : Emulator :=
  { Registers := fun i => if i = 0 then 100 else 0
    Eflags := 0
    Memory := fun a => if a = 0 then 0x40 else if a = 1 then d else 0
    Eip := 0
    MaxMemorySize := 1024
    Output := [] }

/-- Effective address computed by decoding the ModRM stream of `dispState d`
and resolving it. -/
def dispAddr (d : Nat) : Option Nat :=
  (dispState d).ParseModrm.2.calcMemoryAddress (dispState d).ParseModrm.1

/-- Concrete state for the opcode 0x8A dispatch divergence: code bytes
`8A C1` (ModRM mode 3, reg 0, rm 1), EAX = 0x11111111, ECX = 0x22222222. -/
def mov8State : Emulator :=
  { Registers := fun i => if i = 0 then 286331153 else
      if i = 1 then 572662306 else 0
    Eflags := 0
    Memory := fun a => if a = 0 then 0x8A else if a = 1 then 0xC1 else 0
    Eip := 0
    MaxMemorySize := 1024
    Output := [] }

/-- Concrete state for the short jump with displacement byte 0x05 at program
counter 0x7c00. -/
def jumpState5 : Emulator :=
  { Registers := fun _ => 0
    Eflags := 0
    Memory := fun a => if a = 31744 then 0xEB else if a = 31745 then 0x05 else 0
    Eip := 31744
    MaxMemorySize := 1048576
    Output := [] }

/-- Concrete state for the short jump with displacement byte 0xFE at program
counter 0x7c00. -/
def jumpStateFE : Emulator :=
  { Registers := fun _ => 0
    Eflags := 0
    Memory := fun a => if a = 31744 then 0xEB else if a = 31745 then 0xFE else 0
    Eip := 31744
    MaxMemorySize := 1048576
    Output := [] }

/-- Concrete state whose next code byte is 0x80 (the extreme negative
displacement/immediate). -/
def signState8 : Emulator :=
  { Registers := fun _ => 0
    Eflags := 0
    Memory := fun a => if a = 0 then 0x80 else 0
    Eip := 0
    MaxMemorySize := 1024
    Output := [] }

/-- Concrete state whose next 4 code bytes are `00 00 00 80`, the word
0x80000000. -/
def signState32 : Emulator :=
  { Registers := fun _ => 0
    Eflags := 0
    Memory := fun a => if a = 3 then 0x80 else 0
    Eip := 0
    MaxMemorySize := 1024
    Output := [] }

/-- Memory image of the two-instruction end-to-end program: `mov eax,
0x12345678` (B8 78 56 34 12) at the 0x7c00 load offset followed by the
unrecognized opcode 0xF4. -/
def endMem : Nat → Nat := fun a =>
  if a = 31744 then 0xB8 else if a = 31745 then 0x78 else
  if a = 31746 then 0x56 else if a = 31747 then 0x34 else
  if a = 31748 then 0x12 else if a = 31749 then 0xF4 else 0

/-- Initial state of the end-to-end unrecognized-opcode program: entry point
and stack pointer 0x7c00, memory bound 1 MiB, as the reference loader sets
them up. -/
def endInit : Emulator :=
  { Registers := fun i => if i = 4 then 31744 else 0
    Eflags := 0
    Memory := endMem
    Eip := 31744
    MaxMemorySize := 1048576
    Output := [] }

/-- State after the first instruction of the end-to-end program: EAX loaded
with 0x12345678, program counter advanced to 0x7c05. -/
def endMid : Emulator :=
  { Registers := fun j => if j = 0 then 305419896 else
      if j = 4 then 31744 else 0
    Eflags := 0
    Memory := endMem
    Eip := 31749
    MaxMemorySize := 1048576
    Output := [] }

/-- Final state of the end-to-end program: the unrecognized opcode forced the
program counter to zero. -/
def endFinal : Emulator :=
  { endMid with Eip := 0 }

/-- Concrete state for the teletype scenario: code bytes `CD 10`
(interrupt 0x10), AH = 0x0E, AL = 0x41 ('A'), BL = 0x0C (bright red). -/
def teletypeState : Emulator :=
  { Registers := fun i => if i = 0 then 3649 else if i = 3 then 12 else 0
    Eflags := 0
    Memory := fun a => if a = 0 then 0xCD else if a = 1 then 0x10 else 0
    Eip := 0
    MaxMemorySize := 1024
    Output := [] }

/-- Concrete state for the push/pop round trip and its stack-pointer
counterexample: code bytes `6A 2A 5C` (`push 0x2A; pop esp`), stack pointer
100. -/
def pushPopState : Emulator :=
  { Registers := fun i => if i = 4 then 100 else 0
    Eflags := 0
    Memory := fun a => if a = 0 then 0x6A else if a = 1 then 0x2A else
      if a = 2 then 0x5C else 0
    Eip := 0
    MaxMemorySize := 1024
    Output := [] }

/-- Concrete state for the push/pop round-trip witness: code bytes `6A 2A 58`
(`push 0x2A; pop eax`), stack pointer 100. -/
def pushPopStateA : Emulator :=
  { Registers := fun i => if i = 4 then 100 else 0
    Eflags := 0
    Memory := fun a => if a = 0 then 0x6A else if a = 1 then 0x2A else
      if a = 2 then 0x58 else 0
    Eip := 0
    MaxMemorySize := 1024
    Output := [] }

/-- Concrete state for pushing the stack-pointer register itself: code byte
`54` (`push esp`), stack pointer 100. -/
def pushEspState : Emulator :=
  { Registers := fun i => if i = 4 then 100 else 0
    Eflags := 0
    Memory := fun a => if a = 0 then 0x54 else 0
    Eip := 0
    MaxMemorySize := 1024
    Output := [] }

/-- Concrete state for the `CmpRm32Imm8` contrast: code bytes `83 F8 FE`
(`cmp eax, -2` in register-direct form), EAX = 0xFFFFFFFE, and the zero flag
initially clear. -/
def cmpFlagsState : Emulator :=
  { Registers := fun i => if i = 0 then 4294967294 else 0
    Eflags := 0
    Memory := fun a => if a = 0 then 0x83 else if a = 1 then 0xF8 else
      if a = 2 then 0xFE else 0
    Eip := 0
    MaxMemorySize := 1024
    Output := [] }

/-- Register-direct addressing descriptor (mode 3, reg 0, rm 0), used to
exercise the immediate-group sub-operations on a register operand. -/
def regDirectModRM : ModRM :=
  ⟨3, 0, 0, 0, 0, 0⟩

/-- Concrete state for the flag-preservation witnesses: code bytes `01 C0`
(`add eax, eax` in register-direct form) and a flags word with carry, zero
and sign set (value 193). -/
def addFlagsState : Emulator :=
  { Registers := fun i => if i = 0 then 5 else 0
    Eflags := 193
    Memory := fun a => if a = 0 then 0x01 else if a = 1 then 0xC0 else 0
    Eip := 0
    MaxMemorySize := 1024
    Output := [] }

lemma getMemory8_setMemory8_self (e : Emulator) (a v : Nat) :
    (e.setMemory8 a v).getMemory8 a = v % 256 := by
  simp [Emulator.getMemory8, Emulator.setMemory8]

lemma getMemory8_setMemory8_ne (e : Emulator) (a b v : Nat) (h : b ≠ a) :
    (e.setMemory8 a v).getMemory8 b = e.getMemory8 b := by
  simp [Emulator.getMemory8, Emulator.setMemory8, h]

lemma getMemory32_setMemory32 (e : Emulator) (a v : Nat) :
    (e.setMemory32 a v).getMemory32 a = v % 4294967296 := by
  unfold Emulator.setMemory32 Emulator.getMemory32
  rw [getMemory8_setMemory8_ne _ ((a + 3) % 4294967296) ((a + 0) % 4294967296) _
      (by omega),
    getMemory8_setMemory8_ne _ ((a + 2) % 4294967296) ((a + 0) % 4294967296) _
      (by omega),
    getMemory8_setMemory8_ne _ ((a + 1) % 4294967296) ((a + 0) % 4294967296) _
      (by omega),
    getMemory8_setMemory8_self,
    getMemory8_setMemory8_ne _ ((a + 3) % 4294967296) ((a + 1) % 4294967296) _
      (by omega),
    getMemory8_setMemory8_ne _ ((a + 2) % 4294967296) ((a + 1) % 4294967296) _
      (by omega),
    getMemory8_setMemory8_self,
    getMemory8_setMemory8_ne _ ((a + 3) % 4294967296) ((a + 2) % 4294967296) _
      (by omega),
    getMemory8_setMemory8_self,
    getMemory8_setMemory8_self]
  omega

lemma getMemory32_setRegister32 (e : Emulator) (i v a : Nat) :
    (e.setRegister32 i v).getMemory32 a = e.getMemory32 a := rfl

lemma getRegister32_setMemory32 (e : Emulator) (a v i : Nat) :
    (e.setMemory32 a v).getRegister32 i = e.getRegister32 i := rfl

lemma eflags_setRegister32 (e : Emulator) (i v : Nat) :
    (e.setRegister32 i v).Eflags = e.Eflags := rfl

lemma eflags_setMemory32 (e : Emulator) (a v : Nat) :
    (e.setMemory32 a v).Eflags = e.Eflags := rfl

lemma eflags_setRegister8 (e : Emulator) (i v : Nat) :
    (e.setRegister8 i v).Eflags = e.Eflags := by
  unfold Emulator.setRegister8
  split_ifs <;> rfl

lemma eflags_setRm32 (e : Emulator) (m : ModRM) (v : Nat) (e2 : Emulator)
    (h : e.setRm32 m v = some e2) : e2.Eflags = e.Eflags := by
  unfold Emulator.setRm32 at h
  split_ifs at h
  · exact (Option.some_inj.mp h) ▸ rfl
  · cases hc : e.calcMemoryAddress m with
    | none => rw [hc] at h; simp at h
    | some a =>
      rw [hc] at h
      simp only [Option.map_some'] at h
      exact (Option.some_inj.mp h) ▸ rfl

lemma eflags_ParseModrm (e : Emulator) :
    e.ParseModrm.2.Eflags = e.Eflags := by
  unfold Emulator.ParseModrm
  dsimp only
  split_ifs <;> rfl

lemma GetSignCode8_eq_signext8 (e : Emulator) (index : Nat) :
    e.GetSignCode8 index =
      signext8 (e.Memory ((e.Eip + index) % 4294967296) % 256) := by
  unfold Emulator.GetSignCode8 signext8
  dsimp only
  simp only [Nat.shiftRight_eq_div_pow]
  split_ifs <;> omega

lemma GetCode32_lt (e : Emulator) (index : Nat) :
    e.GetCode32 index < 4294967296 := by
  unfold Emulator.GetCode32 Emulator.GetCode8
  have h0 := Nat.mod_lt (e.Memory ((e.Eip + (index + 0)) % 4294967296))
    (show 0 < 256 by norm_num)
  have h1 := Nat.mod_lt (e.Memory ((e.Eip + (index + 1)) % 4294967296))
    (show 0 < 256 by norm_num)
  have h2 := Nat.mod_lt (e.Memory ((e.Eip + (index + 2)) % 4294967296))
    (show 0 < 256 by norm_num)
  have h3 := Nat.mod_lt (e.Memory ((e.Eip + (index + 3)) % 4294967296))
    (show 0 < 256 by norm_num)
  omega

lemma getRegister32_eip (e : Emulator) (p i : Nat) :
    ({ e with Eip := p } : Emulator).getRegister32 i = e.getRegister32 i := rfl

lemma getMemory32_eip (e : Emulator) (p a : Nat) :
    ({ e with Eip := p } : Emulator).getMemory32 a = e.getMemory32 a := rfl

lemma getRegister32_setRegister32_self (e : Emulator) (i v : Nat) :
    (e.setRegister32 i v).getRegister32 i = v % 4294967296 := by
  simp [Emulator.getRegister32, Emulator.setRegister32]

lemma push32_esp (e : Emulator) (v : Nat) :
    (e.push32 v).getRegister32 CEsp =
      (e.getRegister32 CEsp + 4294967296 - 4) % 4294967296 := by
  unfold Emulator.push32
  dsimp only
  rw [getRegister32_setMemory32, getRegister32_setRegister32_self]
  omega

lemma push32_mem (e : Emulator) (v : Nat) :
    (e.push32 v).getMemory32
      ((e.getRegister32 CEsp + 4294967296 - 4) % 4294967296) = v % 4294967296 := by
  unfold Emulator.push32
  dsimp only
  rw [getMemory32_setMemory32]

lemma popR32_after (e : Emulator) (r : Nat) (hr : r < 8)
    (hcode : e.GetCode8 0 = 0x58 + r) :
    e.popR32.Registers r = e.getMemory32 (e.getRegister32 CEsp) ∧
    (r ≠ 4 → e.popR32.getRegister32 CEsp =
      (e.getRegister32 CEsp + 4) % 4294967296) := by
  have hreg : ((0x58 + r + 4294967296 - 0x58) % 4294967296) % 256 = r := by omega
  unfold Emulator.popR32 Emulator.pop32
  dsimp only
  rw [hcode, hreg]
  constructor
  · simp [Emulator.setRegister32]
  · intro h4
    simp [Emulator.getRegister32, Emulator.setRegister32, CEsp, Ne.symm h4]

/-- Claim C1, evaluated at the failing input. With `rm32 = 0xFFFFFFFE` and
immediate byte 0xFE, both 32-bit operands of the subtract-immediate-8-bit
sub-operation equal 0xFFFFFFFE, so the claim requires carry clear (not a < b)
and zero set (a = b). The code instead computes the wide result as
`uint64(rm32) - uint64(imm8)` with `imm8` sign-extended to 64 bits, giving
0x100000000: starting from a flags word with only the zero flag set (64), it
ends with flags word 1 (carry set, zero cleared), while the stored 32-bit
result is 0. The compare-immediate-8-bit sub-operation on the same operands
(second conjunct) converts the immediate to `uint32` first and ends with
flags word 64, exactly what the claim requires — the subtract path alone
deviates. -/
theorem C1_sub_flags_divergence :
    (subFlagsState.executeOpCode 0x83).map (fun f => (f.Eflags, f.Registers 0)) =
      some (1, 0) ∧
    (cmpFlagsState.executeOpCode 0x83).map (fun f => f.Eflags) = some 64 := by
  exact ⟨by decide, by decide⟩

/-- Claim C2, evaluated at the failing input. With mode 1, base register 0
holding 100: displacement byte 0xFE resolves to 98 and byte 0x00 to 100 as
the claim states, but byte 0x80 (signed value -128) resolves to 228
(100 + 128) instead of the claimed (100 - 128) mod 2^32 = 4294967268: the
Go `int8` negation of -128 wraps back to -128, whose `uint32` conversion is
0xFFFFFF80, and subtracting that wraps around to adding 128. -/
theorem C2_disp8_decode_divergence :
    dispAddr 0xFE = some 98 ∧ dispAddr 0 = some 100 ∧
      dispAddr 0x80 = some 228 := by
  exact ⟨by decide, by decide, by decide⟩

/-- Claim C3, evaluated at the failing input. On code bytes `8A C1` (ModRM
mode 3, reg field 0, rm field 1) with EAX = 0x11111111 and ECX = 0x22222222,
the dispatch table routes opcode 0x8A to `MovRm32R32`, which stores all 32
bits of EAX into ECX: the result is EAX = ECX = 0x11111111. The claim's
byte-form load semantics — computed by the (never dispatched) `MovR8Rm8`
handler on the same state, second conjunct — would instead leave
EAX = 0x11111122 (only AL changed, to CL's value 0x22) and ECX untouched. -/
theorem C3_mov8_dispatch_divergence :
    (mov8State.executeOpCode 0x8A).map (fun f => (f.Registers 0, f.Registers 1)) =
      some (286331153, 286331153) ∧
    mov8State.MovR8Rm8.map (fun f => (f.Registers 0, f.Registers 1)) =
      some (286331170, 572662306) := by
  exact ⟨by decide, by decide⟩

/-- Claim C5: the 1-byte sign-extended read lands in [-128, 127] and is
congruent to the raw byte modulo 256, and the 4-byte sign-extended read lands
in [-2^31, 2^31 - 1] and is congruent to the raw 32-bit word modulo 2^32 —
standard two's-complement decoding; the last two conjuncts check the extreme
encodings 0x80 and 0x80000000 explicitly. -/
theorem C5_sign_extension :
    (∀ (e : Emulator) (index : Nat),
      -128 ≤ e.GetSignCode8 index ∧ e.GetSignCode8 index ≤ 127 ∧
        (e.GetSignCode8 index -
          (e.Memory ((e.Eip + index) % 4294967296) % 256 : Nat)) % 256 = 0) ∧
    (∀ (e : Emulator) (index : Nat),
      -2147483648 ≤ e.GetSignCode32 index ∧
        e.GetSignCode32 index ≤ 2147483647 ∧
        (e.GetSignCode32 index - (e.GetCode32 index : Nat)) % 4294967296 = 0) ∧
    signState8.GetSignCode8 0 = -128 ∧
    signState32.GetSignCode32 0 = -2147483648 := by
  refine ⟨?_, ?_, by decide, by decide⟩
  · intro e index
    rw [GetSignCode8_eq_signext8]
    have hb : e.Memory ((e.Eip + index) % 4294967296) % 256 < 256 :=
      Nat.mod_lt _ (by norm_num)
    unfold signext8
    split_ifs <;> refine ⟨by omega, by omega, by omega⟩
  · intro e index
    have hv := GetCode32_lt e index
    unfold Emulator.GetSignCode32 toInt32 int32wrap
    dsimp only
    simp only [Nat.shiftRight_eq_div_pow]
    split_ifs <;> refine ⟨by omega, by omega, by omega⟩

/-- Claim C4: for every displacement byte `d` at `Eip + 1` and every starting
program counter, the unconditional short jump sets the program counter to
(old + signext(d) + 2) mod 2^32; the last two conjuncts are the claim's
concrete instances, displacement 0x05 at 0x7c00 giving 0x7c07 and 0xFE at
0x7c00 giving 0x7c00. -/
theorem C4_short_jump_eip :
    (∀ (e : Emulator) (d : Nat),
      e.Memory ((e.Eip + 1) % 4294967296) % 256 = d →
        (e.ShortJump.Eip : Int) =
          ((e.Eip : Int) + signext8 d + 2) % 4294967296) ∧
    jumpState5.ShortJump.Eip = 31751 ∧ jumpStateFE.ShortJump.Eip = 31744 := by
  refine ⟨?_, by decide, by decide⟩
  intro e d h
  have hd : d < 256 := h ▸ Nat.mod_lt _ (by norm_num)
  unfold Emulator.ShortJump
  rw [GetSignCode8_eq_signext8, h]
  unfold signext8 u32ofInt
  dsimp only
  split_ifs <;> dsimp only <;> omega

/-- Witness for C4 at the concrete input of the spec's example: displacement
byte 0x05 at program counter 0x7c00. -/
theorem C4_short_jump_eip_witness :
    jumpState5.Memory ((jumpState5.Eip + 1) % 4294967296) % 256 = 5 ∧
    (jumpState5.ShortJump.Eip : Int) =
      ((jumpState5.Eip : Int) + signext8 5 + 2) % 4294967296 :=
  ⟨by decide, C4_short_jump_eip.1 jumpState5 5 (by decide)⟩

lemma Run_succ (n : Nat) (e : Emulator) :
    Run (n + 1) e =
      if e.MaxMemorySize ≤ e.Eip then some e
      else
        (e.executeOpCode (e.GetCode8 0)).bind
          (fun e2 => if e2.Eip = 0 then some e2 else Run n e2) := by
  rfl

set_option maxHeartbeats 1000000 in
/-- Claim C6: an opcode outside the dispatch table executes to the same state
with only the program counter forced to 0 (registers, flags and memory are
untouched since only the `Eip` field is replaced), and the two-instruction
program `mov eax, 0x12345678; 0xF4` runs to a clean (non-fatal, `some`) halt
with register 0 = 0x12345678 and program counter 0, for every fuel bound of
at least two steps. -/
theorem C6_unrecognized_opcode :
    (∀ (e : Emulator) (opCode : Nat), opCode ∉ opcodeTable →
      e.executeOpCode opCode = some { e with Eip := 0 }) ∧
    (∀ n : Nat, (Run (n + 2) endInit).map (fun f => (f.Registers 0, f.Eip)) =
      some (305419896, 0)) := by
  constructor
  · intro e c h
    simp [opcodeTable] at h
    unfold Emulator.executeOpCode
    rw [if_neg (show ¬(c = 0x01) by omega)]
    rw [if_neg (show ¬(c = 0x3B) by omega)]
    rw [if_neg (show ¬(c = 0x3C) by omega)]
    rw [if_neg (show ¬(c = 0x3D) by omega)]
    rw [if_neg (show ¬(c = 0x40 ∨ c = 0x41 ∨ c = 0x42 ∨ c = 0x43 ∨ c = 0x44 ∨
      c = 0x45 ∨ c = 0x46 ∨ c = 0x47) by omega)]
    rw [if_neg (show ¬(c = 0x50 ∨ c = 0x51 ∨ c = 0x52 ∨ c = 0x53 ∨ c = 0x54 ∨
      c = 0x55 ∨ c = 0x56 ∨ c = 0x57) by omega)]
    rw [if_neg (show ¬(c = 0x58 ∨ c = 0x59 ∨ c = 0x5A ∨ c = 0x5B ∨ c = 0x5C ∨
      c = 0x5D ∨ c = 0x5E ∨ c = 0x5F) by omega)]
    rw [if_neg (show ¬(c = 0x68) by omega)]
    rw [if_neg (show ¬(c = 0x6A) by omega)]
    rw [if_neg (show ¬(c = 0x70) by omega)]
    rw [if_neg (show ¬(c = 0x71) by omega)]
    rw [if_neg (show ¬(c = 0x72) by omega)]
    rw [if_neg (show ¬(c = 0x73) by omega)]
    rw [if_neg (show ¬(c = 0x74) by omega)]
    rw [if_neg (show ¬(c = 0x75) by omega)]
    rw [if_neg (show ¬(c = 0x78) by omega)]
    rw [if_neg (show ¬(c = 0x79) by omega)]
    rw [if_neg (show ¬(c = 0x7C) by omega)]
    rw [if_neg (show ¬(c = 0x7E) by omega)]
    rw [if_neg (show ¬(c = 0x83) by omega)]
    rw [if_neg (show ¬(c = 0x88) by omega)]
    rw [if_neg (show ¬(c = 0x89) by omega)]
    rw [if_neg (show ¬(c = 0x8A) by omega)]
    rw [if_neg (show ¬(c = 0x8B) by omega)]
    rw [if_neg (show ¬(c = 0xB0 ∨ c = 0xB1 ∨ c = 0xB2 ∨ c = 0xB3 ∨ c = 0xB4 ∨
      c = 0xB5 ∨ c = 0xB6 ∨ c = 0xB7) by omega)]
    rw [if_neg (show ¬(c = 0xB8 ∨ c = 0xB9 ∨ c = 0xBA ∨ c = 0xBB ∨ c = 0xBC ∨
      c = 0xBD ∨ c = 0xBE ∨ c = 0xBF) by omega)]
    rw [if_neg (show ¬(c = 0xC3) by omega)]
    rw [if_neg (show ¬(c = 0xC7) by omega)]
    rw [if_neg (show ¬(c = 0xC9) by omega)]
    rw [if_neg (show ¬(c = 0xCD) by omega)]
    rw [if_neg (show ¬(c = 0xE8) by omega)]
    rw [if_neg (show ¬(c = 0xE9) by omega)]
    rw [if_neg (show ¬(c = 0xEB) by omega)]
    rw [if_neg (show ¬(c = 0xEE) by omega)]
    rw [if_neg (show ¬(c = 0xFF) by omega)]
  · intro n
    have h1 : endInit.executeOpCode (endInit.GetCode8 0) = some endMid := by rfl
    have h2 : endMid.executeOpCode (endMid.GetCode8 0) = some endFinal := by rfl
    have hm : Run (n + 2) endInit = some endFinal := by
      rw [show n + 2 = n + 1 + 1 from rfl, Run_succ,
        if_neg (show ¬(endInit.MaxMemorySize ≤ endInit.Eip) by decide), h1,
        Option.some_bind']
      rw [if_neg (show ¬(endMid.Eip = 0) by decide), Run_succ,
        if_neg (show ¬(endMid.MaxMemorySize ≤ endMid.Eip) by decide), h2,
        Option.some_bind']
      rw [if_pos (show endFinal.Eip = 0 by decide)]
    rw [hm]
    decide

/-- Witness for C6: the opcode 0xF4 (not in the dispatch table) executed on
the mid-run state halts it, and the end-to-end run with fuel 2 finishes with
register 0 = 0x12345678 and program counter 0. -/
theorem C6_unrecognized_opcode_witness :
    endMid.executeOpCode 0xF4 = some { endMid with Eip := 0 } ∧
    (Run 2 endInit).map (fun f => (f.Registers 0, f.Eip)) =
      some (305419896, 0) :=
  ⟨C6_unrecognized_opcode.1 endMid 0xF4 (by decide),
    C6_unrecognized_opcode.2 0⟩

/-- Counterexample to claim C7 as stated: with stack pointer 100, executing
`push 0x2A` (6A 2A) followed by `pop esp` (5C) — a pop into a register,
namely the stack-pointer register — leaves the stack pointer equal to the
popped value 0x2A rather than restored to its pre-push value 100: `pop32`
first restores the stack pointer, and the destination-register write then
overwrites it. The four stack bytes at 100 - 4 = 96 are inside memory, so
the claim's own side condition holds. -/
theorem C7_pop_esp_counterexample :
    pushPopState.PushImm8.popR32.getRegister32 CEsp ≠
      pushPopState.getRegister32 CEsp := by decide

/-- Claim C7 as amended: for every state, executing push-immediate-8-bit
followed by pop-into-register (the pop opcode byte `0x58 + r` being what the
fetch at the post-push program counter finds) leaves the destination register
equal to the immediate zero-extended to 32 bits, and — provided the
destination register is not the stack-pointer register itself — the stack
pointer is restored to its pre-push value. -/
theorem C7_push_pop_roundtrip :
    ∀ (e : Emulator) (r : Nat), r < 8 →
      e.PushImm8.GetCode8 0 = 0x58 + r →
      e.PushImm8.popR32.Registers r = e.GetCode8 1 ∧
      (r ≠ 4 →
        e.PushImm8.popR32.getRegister32 CEsp = e.getRegister32 CEsp) := by
  intro e r hr hcode
  have hv : e.GetCode8 1 < 256 := Nat.mod_lt _ (by norm_num)
  have hs : e.getRegister32 CEsp < 4294967296 := Nat.mod_lt _ (by norm_num)
  have hESP : e.PushImm8.getRegister32 CEsp =
      (e.getRegister32 CEsp + 4294967296 - 4) % 4294967296 := by
    unfold Emulator.PushImm8
    dsimp only
    rw [getRegister32_eip]
    exact push32_esp e (e.GetCode8 1)
  have hMem : e.PushImm8.getMemory32
      ((e.getRegister32 CEsp + 4294967296 - 4) % 4294967296) =
      e.GetCode8 1 % 4294967296 := by
    unfold Emulator.PushImm8
    dsimp only
    rw [getMemory32_eip]
    exact push32_mem e (e.GetCode8 1)
  obtain ⟨h1, h2⟩ := popR32_after e.PushImm8 r hr hcode
  constructor
  · rw [h1, hESP, hMem]
    omega
  · intro h4
    rw [h2 h4, hESP]
    omega

/-- Witness for C7 (amended) at the concrete input of the spec's example:
`push 0x2A; pop eax` with stack pointer 100 leaves EAX = 0x2A and the stack
pointer back at 100. -/
theorem C7_push_pop_roundtrip_witness :
    (0 : Nat) < 8 ∧ pushPopStateA.PushImm8.GetCode8 0 = 0x58 + 0 ∧
    pushPopStateA.PushImm8.popR32.Registers 0 = pushPopStateA.GetCode8 1 ∧
    pushPopStateA.PushImm8.popR32.getRegister32 CEsp =
      pushPopStateA.getRegister32 CEsp := by
  obtain ⟨ha, hb⟩ :=
    C7_push_pop_roundtrip pushPopStateA 0 (by norm_num) (by decide)
  exact ⟨by norm_num, by decide, ha, hb (by norm_num)⟩

/-- Claim C8: the 32-bit register-into-rm add, the add-immediate-8-bit
sub-operation, the increment-register instruction and the increment
sub-operation all leave the flags word exactly unchanged whenever they
execute without hitting the fatal tier. -/
theorem C8_no_flag_update :
    (∀ (e e2 : Emulator), e.AddRm32R32 = some e2 → e2.Eflags = e.Eflags) ∧
    (∀ (e : Emulator) (m : ModRM) (e2 : Emulator),
      e.AddRm32Imm8 m = some e2 → e2.Eflags = e.Eflags) ∧
    (∀ e : Emulator, e.IncR32.Eflags = e.Eflags) ∧
    (∀ (e : Emulator) (m : ModRM) (e2 : Emulator),
      e.IncRm32 m = some e2 → e2.Eflags = e.Eflags) := by
  refine ⟨?_, ?_, ?_, ?_⟩
  · intro e e2 h
    unfold Emulator.AddRm32R32 at h
    dsimp only at h
    rw [Option.bind_eq_some] at h
    obtain ⟨rm32, hg, hset⟩ := h
    have h2 := eflags_setRm32 _ _ _ _ hset
    exact h2.trans (eflags_ParseModrm _)
  · intro e m e2 h
    unfold Emulator.AddRm32Imm8 at h
    dsimp only at h
    rw [Option.bind_eq_some] at h
    obtain ⟨rm32, hg, hset⟩ := h
    have h2 := eflags_setRm32 _ _ _ _ hset
    exact h2
  · intro e
    rfl
  · intro e m e2 h
    unfold Emulator.IncRm32 at h
    rw [Option.bind_eq_some] at h
    obtain ⟨rm32, hg, hset⟩ := h
    have h2 := eflags_setRm32 _ _ _ _ hset
    exact h2

/-- Witness for C8 at concrete inputs: each of the four operations executed
on a register-direct operand with carry, zero and sign initially set (flags
word 193) ends with the flags word still 193. -/
theorem C8_no_flag_update_witness :
    addFlagsState.AddRm32R32.map Emulator.Eflags = some 193 ∧
    (addFlagsState.AddRm32Imm8 regDirectModRM).map Emulator.Eflags = some 193 ∧
    addFlagsState.IncR32.Eflags = 193 ∧
    (addFlagsState.IncRm32 regDirectModRM).map Emulator.Eflags = some 193 := by
  refine ⟨?_, ?_, ?_, ?_⟩
  · obtain ⟨x, hx⟩ : ∃ x, addFlagsState.AddRm32R32 = some x := ⟨_, rfl⟩
    rw [hx, Option.map_some', C8_no_flag_update.1 addFlagsState x hx]
    decide
  · obtain ⟨x, hx⟩ : ∃ x, addFlagsState.AddRm32Imm8 regDirectModRM = some x :=
      ⟨_, rfl⟩
    rw [hx, Option.map_some',
      C8_no_flag_update.2.1 addFlagsState regDirectModRM x hx]
    decide
  · rw [C8_no_flag_update.2.2.1 addFlagsState]
    decide
  · obtain ⟨x, hx⟩ : ∃ x, addFlagsState.IncRm32 regDirectModRM = some x :=
      ⟨_, rfl⟩
    rw [hx, Option.map_some',
      C8_no_flag_update.2.2.2 addFlagsState regDirectModRM x hx]
    decide

/-- Claim C9: interrupt 0x10 with AH = 0x0E, AL = 0x41 ('A') and BL = 0x0C
hands the display sink the triple (character 'A', terminal color 31 — the
identifier for red —, brightness 1); and in general the teletype service
emits the character from AL with the color identifier selected from the fixed
8-entry table by the low 3 bits of the 4-bit color and the brightness flag
from bit 3. -/
theorem C9_teletype_triple :
    (teletypeState.executeOpCode 0xCD).map (fun f => f.Output) =
      some [(65, 31, 1)] ∧
    (∀ e : Emulator,
      e.biosVideoTeletype.Output = e.Output ++
        [(e.getRegister8 CAl,
          biosToTerminal.getD (e.getRegister8 CBl % 16 % 8) 0,
          e.getRegister8 CBl % 16 / 8)]) := by
  constructor
  · decide
  · intro e
    unfold Emulator.biosVideoTeletype
    dsimp only
    have h15 : ∀ y : Nat, y &&& 15 = y % 16 := fun y =>
      Nat.and_pow_two_sub_one_eq_mod y 4
    have h7 : ∀ y : Nat, y &&& 7 = y % 8 := fun y =>
      Nat.and_pow_two_sub_one_eq_mod y 3
    have h8 : ∀ c : Nat, c < 16 → (c &&& 8) >>> 3 = c / 8 := by
      intro c hc
      interval_cases c <;> rfl
    rw [h15, h7, h8 (e.getRegister8 CBl % 16) (Nat.mod_lt _ (by norm_num))]

/-- Claim C10: pushing the stack-pointer register itself (opcode 0x54) stores
the stack pointer's pre-decrement value at (old stack pointer - 4), and the
stack pointer afterwards is that old value minus 4 — the register is read
before the stack pointer moves. -/
theorem C10_push_esp_order :
    ∀ e : Emulator, e.GetCode8 0 = 0x54 →
      e.PushR32.getMemory32
        ((e.getRegister32 CEsp + 4294967296 - 4) % 4294967296) =
        e.getRegister32 CEsp ∧
      e.PushR32.getRegister32 CEsp =
        (e.getRegister32 CEsp + 4294967296 - 4) % 4294967296 := by
  intro e h
  have hs : e.getRegister32 CEsp < 4294967296 := Nat.mod_lt _ (by norm_num)
  unfold Emulator.PushR32
  dsimp only
  rw [h]
  rw [show ((0x54 + 4294967296 - 0x50) % 4294967296) % 256 = CEsp by norm_num [CEsp]]
  constructor
  · rw [getMemory32_eip]
    exact (push32_mem e (e.getRegister32 CEsp)).trans (by omega)
  · rw [getRegister32_eip]
    exact push32_esp e (e.getRegister32 CEsp)

/-- Witness for C10 at the concrete input: `push esp` with stack pointer 100
stores 100 at address 96 and leaves the stack pointer at 96. -/
theorem C10_push_esp_order_witness :
    pushEspState.GetCode8 0 = 0x54 ∧
    pushEspState.PushR32.getMemory32
      ((pushEspState.getRegister32 CEsp + 4294967296 - 4) % 4294967296) =
      pushEspState.getRegister32 CEsp ∧
    pushEspState.PushR32.getRegister32 CEsp =
      (pushEspState.getRegister32 CEsp + 4294967296 - 4) % 4294967296 :=
  ⟨by decide, (C10_push_esp_order pushEspState (by decide)).1,
    (C10_push_esp_order pushEspState (by decide)).2⟩


